import Mathlib

/-!
Verification of the pluggable-discovery protocol handler (client side) and the
dummy-discovery sample implementation, shallowly embedded from the Go sources
`client.go` and `dummy-discovery/main.go`.

Concurrency is modelled by making the external interaction points explicit
parameters: the outcome of a `waitMessage` call (a decoded envelope, a closed
channel, or a timeout), the success of pipe writes and process spawning, and
the sequence of values produced by the JSON stream decoder. Channels are
modelled by identifiers plus an explicit trace of effects (line sent, event
pushed to a channel, channel closed, process killed / waited on).
-/

namespace Discovery

/-- A discoverable communication endpoint (`Port` in `client.go`).
`properties` is the ordered string map. -/
structure Port where
  address : String
  addressLabel : String
  protocol : String
  protocolLabel : String
  properties : List (String × String)
deriving Repr, DecidableEq

/-- Wire envelope (`discoveryMessage` in `client.go`). In Go, `Ports` is a
possibly-nil slice (absent and empty coincide for every consumer) and `Port`
is a nullable pointer. -/
structure DiscoveryMessage where
  eventType : String
  message : String
  error : Bool
  protocolVersion : Int
  ports : List Port
  port : Option Port
deriving Repr, DecidableEq

/-- Client-side delivery unit (`Event` in `client.go`). -/
structure Event where
  type : String
  port : Option Port
  discoveryID : String
deriving Repr, DecidableEq

/-! Client states, as the Go `iota` constants. -/

def Alive : Nat := 0
def Idling : Nat := 1
def Running : Nat := 2
def Syncing : Nat := 3
def Dead : Nat := 4

end Discovery

namespace DummyDiscovery

open Discovery

/-- One observable action of the dummy discovery emitter goroutine:
either an `eventCB(type, port)` call or an `errorCB(msg)` call. -/
inductive EmitterStep where
  | event (type : String) (port : Port)
  | error (msg : String)
deriving Repr, DecidableEq

/-- `CreateDummyPort` from `dummy-discovery/main.go`: increments the global
`dummyCounter` and builds a port from it. Takes the current counter value and
returns the port together with the new counter. -/
def CreateDummyPort (dummyCounter : Nat) : Port × Nat :=
  let c := dummyCounter + 1
  (⟨toString c, "Dummy upload port", "dummy", "Dummy protocol",
    [("vid", "0x2341"), ("pid", "0x0041"), ("mac", toString (c * 384782))]⟩, c)

/-- One iteration of the emitter loop body (`for count < 2` in `StartSync`):
waits, emits an `add` for a fresh dummy port, waits, then emits a `remove`
carrying only the address and protocol of that port. -/
def emitterIter (dummyCounter : Nat) : List EmitterStep × Nat :=
  let (port, c1) := CreateDummyPort dummyCounter
  ([.event "add" port,
    .event "remove" ⟨port.address, "", port.protocol, "", []⟩], c1)

/-- The emitter loop, recursing on the remaining iteration count
(`2 - count` in the Go loop). -/
def emitterLoop : Nat → Nat → List EmitterStep × Nat
  | 0, dummyCounter => ([], dummyCounter)
  | n + 1, dummyCounter =>
    let (steps, c1) := emitterIter dummyCounter
    let (rest, c2) := emitterLoop n c1
    (steps ++ rest, c2)

/-- The full trace of the emitter goroutine started by a successful
`DummyDiscovery.StartSync`, when it is never interrupted via `closeChan`:
two initial `add` events, two loop iterations, then the terminal `errorCB`.
An interruption (the `select` on `closeChan`) can only truncate this trace
at an event boundary, so every realizable trace is a prefix of this one. -/
def emitterTrace (dummyCounter : Nat) : List EmitterStep :=
  let (p1, c1) := CreateDummyPort dummyCounter
  let (p2, c2) := CreateDummyPort c1
  let (loopSteps, _) := emitterLoop 2 c2
  [.event "add" p1, .event "add" p2] ++ loopSteps ++
    [.error "unrecoverable error, cannot send more events"]

/-- `DummyDiscovery.StartSync` from `dummy-discovery/main.go`: increments
`startSyncCount`, fails every fifth invocation without starting the emitter,
otherwise starts the emitter goroutine (returned as its event trace). -/
def StartSync (startSyncCount dummyCounter : Nat) :
    Nat × Except String (List EmitterStep) :=
  let n := startSyncCount + 1
  if n % 5 = 0 then
    (n, .error "could not start_sync every 5 times")
  else
    (n, .ok (emitterTrace dummyCounter))

end DummyDiscovery

namespace Discovery

/-- Observable side effects of a client operation, in order of occurrence:
a command line written to the subprocess stdin, an `Event` pushed into an
event channel (identified by number), an event channel closed, the
subprocess killed, the subprocess waited on. -/
inductive Effect where
  | sendLine (line : String)
  | chanPush (ch : Nat) (e : Event)
  | chanClose (ch : Nat)
  | killProc
  | waitProc
deriving Repr, DecidableEq

/-- The mutable fields of the Go `Client` relevant to the protocol logic.
`eventChan` holds the identifier of the currently registered event channel
(`nil` pointer = `none`); `nextChanId` is model bookkeeping handing out a
fresh identifier for each channel `make`; `processSpawned` models
`disc.process != nil`. -/
structure Client where
  id : String
  userAgent : String
  state : Nat
  eventChan : Option Nat
  nextChanId : Nat
  incomingMessagesError : Option String
  processSpawned : Bool
deriving Repr, DecidableEq

/-- `NewClient` from `client.go` (the `args` are irrelevant to the model). -/
def NewClient (id : String) : Client :=
  { id := id, userAgent := "pluggable-discovery-protocol-handler",
    state := Dead, eventChan := none, nextChanId := 0,
    incomingMessagesError := none, processSpawned := false }

/-- Test fixture: a successful reply envelope of the given event type. -/
def okReply (t : String) : DiscoveryMessage := ⟨t, "OK", false, 1, [], none⟩

/-- Test fixture: a client in `Syncing` state with the event channel 0
registered and the subprocess running. -/
def cSyncing : Client :=
  { NewClient "disc1" with
      state := Syncing, eventChan := some 0,
      nextChanId := 1, processSpawned := true }

/-- Outcome of one `waitMessage` call as seen by the select statement:
a message arrived, the decode loop closed the channel (nil read),
or the timeout fired. -/
inductive WaitOutcome where
  | msg (m : DiscoveryMessage)
  | chanClosed
  | timeout
deriving Repr, DecidableEq

/-- Uppercasing as used by the Go code (`strings.ToUpper`), modelled
character by character so that it evaluates in the kernel. -/
def toUpperStr (s : String) : String := ⟨s.data.map Char.toUpper⟩

/-- The timeout error text produced by `waitMessage`. -/
def timeoutError (id : String) : String :=
  "timeout waiting for message from " ++ id

/-- `waitMessage` from `client.go`: returns the received message, or on a
nil read the error recorded by the decode loop, or the timeout error. -/
def waitMessage (c : Client) (w : WaitOutcome) : Except String DiscoveryMessage :=
  match w with
  | .msg m => .ok m
  | .chanClosed => .error (c.incomingMessagesError.getD "")
  | .timeout => .error (timeoutError c.id)

/-- `stopSync` from `client.go`: if an event channel is registered, push a
synthetic "stop" `Event` into it, close it, and forget it. -/
def stopSync (c : Client) : Client × List Effect :=
  match c.eventChan with
  | some ch =>
    ({ c with eventChan := none },
     [.chanPush ch ⟨"stop", none, c.id⟩, .chanClose ch])
  | none => (c, [])

/-- `killProcess` from `client.go`, with the OS-level `Kill`/`Wait` calls
(external collaborators) assumed to succeed: kill and wait if a process was
spawned, then `stopSync` and set the state to `Dead`. -/
def killProcess (c : Client) : Client × List Effect :=
  let kills := if c.processSpawned then [Effect.killProc, Effect.waitProc] else []
  let (c1, flush) := stopSync c
  ({ c1 with state := Dead }, kills ++ flush)

/-- `runProcess` from `client.go`, on the success path (spawn and pipe
wiring are external collaborators): records the process and state `Alive`. -/
def runProcess (c : Client) : Client :=
  { c with processSpawned := true, state := Alive }

/-- The HELLO line sent by `Run`: the quoted field is the literal
string `arduino-cli` followed by the configured user agent. -/
def helloLine (c : Client) : String :=
  "HELLO 1 \"arduino-cli " ++ c.userAgent ++ "\"\n"

/-- `Run` from `client.go`. `spawnErr` is the result of `runProcess`
(pipe/spawn failures), `sendErr` the result of the `sendCommand` write,
`w` the `waitMessage` outcome. Returns the client after the call, the trace
of effects, and the error result (`none` = success). On any error after a
successful spawn, the deferred handler kills the process. -/
def Run (c : Client) (spawnErr sendErr : Option String) (w : WaitOutcome) :
    Client × List Effect × Option String :=
  match spawnErr with
  | some e => (c, [], some e)
  | none =>
    let c1 := runProcess c
    match sendErr with
    | some e =>
      let (c2, fx) := killProcess c1
      (c2, fx, some e)
    | none =>
      let sent := [Effect.sendLine (helloLine c1)]
      match waitMessage c1 w with
      | .error e =>
        let (c2, fx) := killProcess c1
        (c2, sent ++ fx, some ("calling HELLO: " ++ e))
      | .ok m =>
        if m.eventType ≠ "hello" then
          let (c2, fx) := killProcess c1
          (c2, sent ++ fx,
           some ("event out of sync, expected \x27hello\x27, received \x27" ++
             m.eventType ++ "\x27"))
        else if m.error then
          let (c2, fx) := killProcess c1
          (c2, sent ++ fx, some ("command failed: " ++ m.message))
        else if toUpperStr m.message ≠ "OK" then
          let (c2, fx) := killProcess c1
          (c2, sent ++ fx,
           some ("communication out of sync, expected \x27OK\x27, received \x27" ++
             m.message ++ "\x27"))
        else if m.protocolVersion > 1 then
          let (c2, fx) := killProcess c1
          (c2, sent ++ fx,
           some ("protocol version not supported: requested 1, got " ++
             toString m.protocolVersion))
        else
          ({ c1 with state := Idling }, sent, none)

/-- `Start` from `client.go`. -/
def Start (c : Client) (sendErr : Option String) (w : WaitOutcome) :
    Client × List Effect × Option String :=
  match sendErr with
  | some e => (c, [], some e)
  | none =>
    let sent := [Effect.sendLine "START\n"]
    match waitMessage c w with
    | .error e => (c, sent, some ("calling START: " ++ e))
    | .ok m =>
      if m.eventType ≠ "start" then
        (c, sent,
         some ("event out of sync, expected \x27start\x27, received \x27" ++
           m.eventType ++ "\x27"))
      else if m.error then
        (c, sent, some ("command failed: " ++ m.message))
      else if toUpperStr m.message ≠ "OK" then
        (c, sent,
         some ("communication out of sync, expected \x27OK\x27, received \x27" ++
           m.message ++ "\x27"))
      else
        ({ c with state := Running }, sent, none)

/-- `Stop` from `client.go`: on full success only, flush the event channel
(`stopSync`) and move to `Idling`; every failure path returns before
touching the state or the channel. -/
def Stop (c : Client) (sendErr : Option String) (w : WaitOutcome) :
    Client × List Effect × Option String :=
  match sendErr with
  | some e => (c, [], some e)
  | none =>
    let sent := [Effect.sendLine "STOP\n"]
    match waitMessage c w with
    | .error e => (c, sent, some ("calling STOP: " ++ e))
    | .ok m =>
      if m.eventType ≠ "stop" then
        (c, sent,
         some ("event out of sync, expected \x27stop\x27, received \x27" ++
           m.eventType ++ "\x27"))
      else if m.error then
        (c, sent, some ("command failed: " ++ m.message))
      else if toUpperStr m.message ≠ "OK" then
        (c, sent,
         some ("communication out of sync, expected \x27OK\x27, received \x27" ++
           m.message ++ "\x27"))
      else
        let (c1, flush) := stopSync c
        ({ c1 with state := Idling }, sent ++ flush, none)

/-- `List` from `client.go` (named `ListCmd` here since `List` is taken):
sends LIST and returns the `ports` field of the matching envelope; it never
touches the client state. -/
def ListCmd (c : Client) (sendErr : Option String) (w : WaitOutcome) :
    Client × List Effect × Except String (List Port) :=
  match sendErr with
  | some e => (c, [], .error e)
  | none =>
    let sent := [Effect.sendLine "LIST\n"]
    match waitMessage c w with
    | .error e => (c, sent, .error ("calling LIST: " ++ e))
    | .ok m =>
      if m.eventType ≠ "list" then
        (c, sent,
         .error ("event out of sync, expected \x27list\x27, received \x27" ++
           m.eventType ++ "\x27"))
      else if m.error then
        (c, sent, .error ("command failed: " ++ m.message))
      else
        (c, sent, .ok m.ports)

/-- `StartSync` from `client.go`: on success sets state `Syncing`, flushes
any previous event channel via `stopSync`, then registers a fresh channel
of the given capacity and returns its identifier. -/
def StartSync (c : Client) (size : Nat) (sendErr : Option String)
    (w : WaitOutcome) : Client × List Effect × Except String Nat :=
  match sendErr with
  | some e => (c, [], .error e)
  | none =>
    let sent := [Effect.sendLine "START_SYNC\n"]
    match waitMessage c w with
    | .error e => (c, sent, .error ("calling START_SYNC: " ++ e))
    | .ok m =>
      if m.eventType ≠ "start_sync" then
        (c, sent,
         .error ("evemt out of sync, expected \x27start_sync\x27, received \x27" ++
           m.eventType ++ "\x27"))
      else if m.error then
        (c, sent, .error ("command failed: " ++ m.message))
      else if toUpperStr m.message ≠ "OK" then
        (c, sent,
         .error ("communication out of sync, expected \x27OK\x27, received \x27" ++
           m.message ++ "\x27"))
      else
        let c1 := { c with state := Syncing }
        let (c2, flush) := stopSync c1
        let ch := c2.nextChanId
        ({ c2 with eventChan := some ch, nextChanId := ch + 1 },
         sent ++ flush, .ok ch)

/-- One result of `decoder.Decode` in the decode loop: a decoded envelope,
end of stream, or any other decode failure. -/
inductive DecodeInput where
  | msg (m : DiscoveryMessage)
  | eof
  | fail (e : String)
deriving Repr, DecidableEq

/-- What the decode loop has produced once it has consumed a given input
sequence: the client after the loop, the envelopes pushed onto
`incomingMessagesChan` (in order), whether that channel was closed
(loop terminated), and the event-channel effects. -/
structure LoopResult where
  client : Client
  outMsgs : List DiscoveryMessage
  outClosed : Bool
  effects : List Effect
deriving Repr, DecidableEq

/-- The body of `closeAndReportError` in `jsonDecodeLoop` (also the EOF
path, which records `io.EOF` — rendered "EOF" — as the error): set state
`Dead`, record the error, close the outgoing message channel. Notably it
does not touch `eventChan`. -/
def closeAndReportError (c : Client) (e : String) : LoopResult :=
  ⟨{ c with state := Dead, incomingMessagesError := some e }, [], true, []⟩

/-- `jsonDecodeLoop` from `client.go`, run over a sequence of decoder
results. "add"/"remove" envelopes with a port are pushed (under lock) into
the registered event channel, or dropped when none is registered; ones
without a port are fatal; every other envelope goes to the message channel.
An empty input list means the loop is still blocked in `Decode`. -/
def jsonDecodeLoop (c : Client) : List DecodeInput → LoopResult
  | [] => ⟨c, [], false, []⟩
  | .eof :: _ => closeAndReportError c "EOF"
  | .fail e :: _ => closeAndReportError c e
  | .msg m :: rest =>
    if m.eventType = "add" then
      match m.port with
      | none => closeAndReportError c "invalid \x27add\x27 message: missing port"
      | some p =>
        let fx := match c.eventChan with
          | some ch => [Effect.chanPush ch ⟨"add", some p, c.id⟩]
          | none => []
        let r := jsonDecodeLoop c rest
        ⟨r.client, r.outMsgs, r.outClosed, fx ++ r.effects⟩
    else if m.eventType = "remove" then
      match m.port with
      | none => closeAndReportError c "invalid \x27remove\x27 message: missing port"
      | some p =>
        let fx := match c.eventChan with
          | some ch => [Effect.chanPush ch ⟨"remove", some p, c.id⟩]
          | none => []
        let r := jsonDecodeLoop c rest
        ⟨r.client, r.outMsgs, r.outClosed, fx ++ r.effects⟩
    else
      let r := jsonDecodeLoop c rest
      ⟨r.client, m :: r.outMsgs, r.outClosed, r.effects⟩

/-- `Quit` from `client.go`: best-effort QUIT send (error ignored), a wait
whose error is only logged, then `stopSync` and `killProcess`
unconditionally. The Go method returns nothing. -/
def Quit (c : Client) (sendErr : Option String) (w : WaitOutcome) :
    Client × List Effect :=
  let sent := match sendErr with
    | some _ => []
    | none => [Effect.sendLine "QUIT\n"]
  let _ := waitMessage c w
  let (c1, flush) := stopSync c
  let (c2, kills) := killProcess c1
  (c2, sent ++ flush ++ kills)

end Discovery

namespace DummyDiscovery

open Discovery

/-- The emitter trace written out element by element. -/
theorem emitterTrace_explicit (d : Nat) : emitterTrace d =
    [.event "add" ⟨toString (d+1), "Dummy upload port", "dummy", "Dummy protocol",
       [("vid", "0x2341"), ("pid", "0x0041"), ("mac", toString ((d+1) * 384782))]⟩,
     .event "add" ⟨toString (d+2), "Dummy upload port", "dummy", "Dummy protocol",
       [("vid", "0x2341"), ("pid", "0x0041"), ("mac", toString ((d+2) * 384782))]⟩,
     .event "add" ⟨toString (d+3), "Dummy upload port", "dummy", "Dummy protocol",
       [("vid", "0x2341"), ("pid", "0x0041"), ("mac", toString ((d+3) * 384782))]⟩,
     .event "remove" ⟨toString (d+3), "", "dummy", "", []⟩,
     .event "add" ⟨toString (d+4), "Dummy upload port", "dummy", "Dummy protocol",
       [("vid", "0x2341"), ("pid", "0x0041"), ("mac", toString ((d+4) * 384782))]⟩,
     .event "remove" ⟨toString (d+4), "", "dummy", "", []⟩,
     .error "unrecoverable error, cannot send more events"] := rfl

/-- C9: in every realizable emitter trace (a prefix of the uninterrupted
trace, for any starting value of the global counter), any "remove" event
comes after the two initial "add" events, and the position immediately
before it holds an "add" for a port with the same address and protocol. -/
theorem emitter_two_adds_before_matched_removes (d k i : Nat) (p : Port)
    (h : ((emitterTrace d).take k)[i]? = some (EmitterStep.event "remove" p)) :
    2 ≤ i ∧
    (∃ q1, ((emitterTrace d).take k)[0]? = some (.event "add" q1)) ∧
    (∃ q2, ((emitterTrace d).take k)[1]? = some (.event "add" q2)) ∧
    (∃ q, ((emitterTrace d).take k)[i - 1]? = some (.event "add" q) ∧
      p.address = q.address ∧ p.protocol = q.protocol) := by
  have hik : i < k := by
    by_contra hge
    rw [List.getElem?_take, if_neg hge] at h
    exact Option.noConfusion h
  rw [List.getElem?_take, if_pos hik, emitterTrace_explicit] at h
  rcases i with _|_|_|_|_|_|_|i
  · simp at h
  · simp at h
  · simp at h
  · injection h with h
    injection h with hty hport
    subst hport
    refine ⟨by omega, ?_, ?_, ?_⟩
    · exact ⟨_, by
        rw [List.getElem?_take, if_pos (by omega), emitterTrace_explicit]; rfl⟩
    · exact ⟨_, by
        rw [List.getElem?_take, if_pos (by omega), emitterTrace_explicit]; rfl⟩
    · exact ⟨⟨toString (d+3), "Dummy upload port", "dummy", "Dummy protocol",
          [("vid", "0x2341"), ("pid", "0x0041"), ("mac", toString ((d+3) * 384782))]⟩,
        by rw [List.getElem?_take, if_pos (by omega), emitterTrace_explicit]; rfl,
        rfl, rfl⟩
  · simp at h
  · injection h with h
    injection h with hty hport
    subst hport
    refine ⟨by omega, ?_, ?_, ?_⟩
    · exact ⟨_, by
        rw [List.getElem?_take, if_pos (by omega), emitterTrace_explicit]; rfl⟩
    · exact ⟨_, by
        rw [List.getElem?_take, if_pos (by omega), emitterTrace_explicit]; rfl⟩
    · exact ⟨⟨toString (d+4), "Dummy upload port", "dummy", "Dummy protocol",
          [("vid", "0x2341"), ("pid", "0x0041"), ("mac", toString ((d+4) * 384782))]⟩,
        by rw [List.getElem?_take, if_pos (by omega), emitterTrace_explicit]; rfl,
        rfl, rfl⟩
  · simp at h
  · simp at h

/-- Witness for C9 at the first remove of a full trace started with the
counter at 0. -/
theorem emitter_two_adds_before_matched_removes_witness :
    2 ≤ 3 ∧
    (∃ q1, ((emitterTrace 0).take 7)[0]? = some (.event "add" q1)) ∧
    (∃ q2, ((emitterTrace 0).take 7)[1]? = some (.event "add" q2)) ∧
    (∃ q, ((emitterTrace 0).take 7)[3 - 1]? = some (.event "add" q) ∧
      Port.address ⟨"3", "", "dummy", "", []⟩ = q.address ∧
      Port.protocol ⟨"3", "", "dummy", "", []⟩ = q.protocol) :=
  emitter_two_adds_before_matched_removes 0 7 3 ⟨"3", "", "dummy", "", []⟩ (by decide)

end DummyDiscovery

namespace Discovery

/-- C1: with the process spawned and the HELLO line written, `Run` succeeds
exactly when the reply envelope has eventType "hello", error false, a
message whose uppercasing is "OK", and protocolVersion at most 1; on
success the state is `Idling`, on any violation `Run` fails and the
subprocess is killed (state `Dead`). -/
theorem Run_succeeds_iff_hello_ok (c : Client) (m : DiscoveryMessage) :
    ((Run c none none (.msg m)).2.2 = none ↔
      m.eventType = "hello" ∧ m.error = false ∧
      toUpperStr m.message = "OK" ∧ m.protocolVersion ≤ 1) ∧
    ((Run c none none (.msg m)).2.2 = none →
      (Run c none none (.msg m)).1.state = Idling) ∧
    ((Run c none none (.msg m)).2.2 ≠ none →
      Effect.killProc ∈ (Run c none none (.msg m)).2.1 ∧
      (Run c none none (.msg m)).1.state = Dead) := by
  cases hc : c.eventChan <;>
    by_cases h1 : m.eventType = "hello" <;>
    by_cases h2 : m.error <;>
    by_cases h3 : toUpperStr m.message = "OK" <;>
    by_cases h4 : m.protocolVersion > 1 <;>
    simp [Run, waitMessage, killProcess, stopSync, runProcess, hc, h1, h2, h3,
      h4] <;>
    omega

/-- Witness for C1: a conforming hello reply puts the client in `Idling`. -/
theorem Run_succeeds_iff_hello_ok_witness :
    (Run (NewClient "disc1") none none
      (.msg ⟨"hello", "OK", false, 1, [], none⟩)).1.state = Idling :=
  (Run_succeeds_iff_hello_ok (NewClient "disc1")
    ⟨"hello", "OK", false, 1, [], none⟩).2.1 (by decide)

/-- C2 counterexample: for a client whose id is "disc1", a fully successful
`Run` sends `HELLO 1 "arduino-cli test-agent"` and not
`HELLO 1 "disc1 test-agent"`: the id never appears in the HELLO line. -/
theorem Run_first_command_cex :
    (Run { NewClient "disc1" with userAgent := "test-agent" } none none
        (.msg ⟨"hello", "OK", false, 1, [], none⟩)).2.2 = none ∧
    (Run { NewClient "disc1" with userAgent := "test-agent" } none none
        (.msg ⟨"hello", "OK", false, 1, [], none⟩)).2.1 =
      [Effect.sendLine "HELLO 1 \"arduino-cli test-agent\"\n"] ∧
    ("HELLO 1 \"arduino-cli test-agent\"\n" : String) ≠
      "HELLO 1 \"disc1 test-agent\"\n" := by decide

/-- C2 amended: for every successful `Run`, the only command sent (hence
the first one the subprocess receives) is exactly
`HELLO 1 "arduino-cli <agent>"` terminated by a newline, where `<agent>` is
the configured user agent; the client id is not part of the line. -/
theorem Run_first_command (c : Client) (spawnErr sendErr : Option String)
    (w : WaitOutcome) (h : (Run c spawnErr sendErr w).2.2 = none) :
    (Run c spawnErr sendErr w).2.1 =
      [Effect.sendLine ("HELLO 1 \"arduino-cli " ++ c.userAgent ++ "\"\n")] := by
  cases spawnErr with
  | some e => simp [Run] at h
  | none =>
    cases sendErr with
    | some e =>
      cases hc : c.eventChan <;>
        simp [Run, killProcess, stopSync, runProcess, hc] at h
    | none =>
      cases w with
      | msg m =>
        by_cases h1 : m.eventType = "hello" <;>
          by_cases h2 : m.error <;>
          by_cases h3 : toUpperStr m.message = "OK" <;>
          by_cases h4 : m.protocolVersion > 1 <;>
          cases hc : c.eventChan <;>
          simp [Run, waitMessage, killProcess, stopSync, runProcess, helloLine,
            hc, h1, h2, h3, h4] at h ⊢
      | chanClosed =>
        cases hc : c.eventChan <;>
          simp [Run, waitMessage, killProcess, stopSync, runProcess, hc] at h
      | timeout =>
        cases hc : c.eventChan <;>
          simp [Run, waitMessage, killProcess, stopSync, runProcess, hc] at h

/-- Witness for the amended C2. -/
theorem Run_first_command_witness :
    (Run (NewClient "disc1") none none
        (.msg ⟨"hello", "OK", false, 1, [], none⟩)).2.1 =
      [Effect.sendLine
        ("HELLO 1 \"arduino-cli " ++ (NewClient "disc1").userAgent ++ "\"\n")] :=
  Run_first_command (NewClient "disc1") none none
    (.msg ⟨"hello", "OK", false, 1, [], none⟩) (by decide)

/-- C3 counterexample: a STOP round trip that times out returns failure but
leaves the open event channel exactly as it was — no synthetic "stop" is
pushed and nothing is closed, refuting "always flushes ... regardless of
whether the STOP command round trip succeeds or fails". -/
theorem Stop_no_flush_on_failure_cex :
    (Stop cSyncing none .timeout).2.2 ≠ none ∧
    (Stop cSyncing none .timeout).1.eventChan = some 0 ∧
    Effect.chanClose 0 ∉ (Stop cSyncing none .timeout).2.1 ∧
    Effect.chanPush 0 ⟨"stop", none, "disc1"⟩ ∉ (Stop cSyncing none .timeout).2.1 := by
  decide

/-- C3 amended: `Stop` flushes the currently open event channel (one
synthetic "stop" event, then close, then discard) only on a successful STOP
round trip, just before setting the state to `Idling`; on every failure
path it returns without flushing and without changing the client at all. -/
theorem Stop_flush_semantics (c : Client) (m : DiscoveryMessage)
    (h1 : m.eventType = "stop") (h2 : m.error = false)
    (h3 : toUpperStr m.message = "OK") :
    ((Stop c none (.msg m)).2.2 = none ∧
     (Stop c none (.msg m)).1.state = Idling ∧
     (Stop c none (.msg m)).1.eventChan = none ∧
     (∀ ch, c.eventChan = some ch →
        (Stop c none (.msg m)).2.1 =
          [Effect.sendLine "STOP\n", Effect.chanPush ch ⟨"stop", none, c.id⟩,
           Effect.chanClose ch]) ∧
     (c.eventChan = none →
        (Stop c none (.msg m)).2.1 = [Effect.sendLine "STOP\n"])) ∧
    (∀ sendErr w, (Stop c sendErr w).2.2 ≠ none →
      (Stop c sendErr w).1 = c ∧
      ∀ ch, Effect.chanClose ch ∉ (Stop c sendErr w).2.1 ∧
        ∀ e, Effect.chanPush ch e ∉ (Stop c sendErr w).2.1) := by
  constructor
  · cases hc : c.eventChan <;>
      simp [Stop, waitMessage, stopSync, h1, h2, h3, hc]
  · intro sendErr w
    cases sendErr with
    | some e => simp [Stop]
    | none =>
      cases w with
      | msg m2 =>
        by_cases g1 : m2.eventType = "stop" <;>
          by_cases g2 : m2.error <;>
          by_cases g3 : toUpperStr m2.message = "OK" <;>
          cases hc : c.eventChan <;>
          simp [Stop, waitMessage, stopSync, g1, g2, g3, hc]
      | chanClosed => simp [Stop, waitMessage]
      | timeout => simp [Stop, waitMessage]

/-- Witness for the amended C3: a successful STOP on a syncing client with
channel 0 open pushes the synthetic stop and closes the channel. -/
theorem Stop_flush_semantics_witness :
    (Stop cSyncing none (.msg (okReply "stop"))).2.1 =
      [Effect.sendLine "STOP\n", Effect.chanPush 0 ⟨"stop", none, cSyncing.id⟩,
       Effect.chanClose 0] :=
  ((Stop_flush_semantics cSyncing (okReply "stop") (by decide) (by decide)
    (by decide)).1).2.2.2.1 0 (by decide)

/-- C4 counterexample: `Quit` on a wait timeout does not return a timeout
failure (it has no failure result at all) and does change the state: from
`Syncing` the client ends `Dead`. -/
theorem Quit_timeout_changes_state_cex :
    cSyncing.state = Syncing ∧
    (Quit cSyncing none .timeout).1.state = Dead ∧
    Syncing ≠ Dead := by decide

/-- C4 amended: on a wait timeout, `Start`, `Stop`, `List` and `StartSync`
return a timeout failure and leave the client unchanged; `Run` returns a
timeout failure but kills (and waits on) the freshly spawned process,
ending in state `Dead` (unchanged only when `Run` was called from `Dead`);
`Quit` ignores the timeout and proceeds with its unconditional teardown to
`Dead`: event channel flushed and discarded, spawned process killed and
waited on. -/
theorem timeout_failure_semantics (c : Client) :
    ((Start c none .timeout).2.2 =
        some ("calling START: " ++ timeoutError c.id) ∧
      (Start c none .timeout).1 = c) ∧
    ((Stop c none .timeout).2.2 =
        some ("calling STOP: " ++ timeoutError c.id) ∧
      (Stop c none .timeout).1 = c) ∧
    ((ListCmd c none .timeout).2.2 =
        Except.error ("calling LIST: " ++ timeoutError c.id) ∧
      (ListCmd c none .timeout).1 = c) ∧
    (∀ n, (StartSync c n none .timeout).2.2 =
        Except.error ("calling START_SYNC: " ++ timeoutError c.id) ∧
      (StartSync c n none .timeout).1 = c) ∧
    ((Run c none none .timeout).2.2 =
        some ("calling HELLO: " ++ timeoutError c.id) ∧
      (Run c none none .timeout).1.state = Dead ∧
      Effect.killProc ∈ (Run c none none .timeout).2.1 ∧
      Effect.waitProc ∈ (Run c none none .timeout).2.1) ∧
    ((Quit c none .timeout).1.state = Dead ∧
      (Quit c none .timeout).1.eventChan = none ∧
      (c.processSpawned = true →
        Effect.killProc ∈ (Quit c none .timeout).2 ∧
        Effect.waitProc ∈ (Quit c none .timeout).2) ∧
      (∀ ch, c.eventChan = some ch →
        Effect.chanPush ch ⟨"stop", none, c.id⟩ ∈ (Quit c none .timeout).2 ∧
        Effect.chanClose ch ∈ (Quit c none .timeout).2)) := by
  cases hc : c.eventChan <;> cases hp : c.processSpawned <;>
    simp [Start, Stop, ListCmd, StartSync, Run, Quit, waitMessage, killProcess,
      stopSync, runProcess, hc, hp]

/-- Witness for the amended C4: a timed-out Quit on a syncing client with a
live process and channel 0 open still kills and waits on the process and
flushes the channel. -/
theorem timeout_failure_semantics_witness :
    (Quit cSyncing none .timeout).1.state = Dead ∧
    (Effect.killProc ∈ (Quit cSyncing none .timeout).2 ∧
      Effect.waitProc ∈ (Quit cSyncing none .timeout).2) ∧
    (Effect.chanPush 0 ⟨"stop", none, cSyncing.id⟩ ∈
        (Quit cSyncing none .timeout).2 ∧
      Effect.chanClose 0 ∈ (Quit cSyncing none .timeout).2) :=
  ⟨(timeout_failure_semantics cSyncing).2.2.2.2.2.1,
   (timeout_failure_semantics cSyncing).2.2.2.2.2.2.2.1 (by decide),
   (timeout_failure_semantics cSyncing).2.2.2.2.2.2.2.2 0 (by decide)⟩

/-- C7: whatever the outcome of the QUIT send and of the wait for its
reply, `Quit` ends with the client `Dead`, the event channel flushed
(stop pushed, then closed) and discarded, and the spawned subprocess
killed and waited on. -/
theorem Quit_always_dead (c : Client) (sendErr : Option String)
    (w : WaitOutcome) :
    (Quit c sendErr w).1.state = Dead ∧
    (Quit c sendErr w).1.eventChan = none ∧
    (c.processSpawned = true →
      Effect.killProc ∈ (Quit c sendErr w).2 ∧
      Effect.waitProc ∈ (Quit c sendErr w).2) ∧
    (∀ ch, c.eventChan = some ch →
      Effect.chanPush ch ⟨"stop", none, c.id⟩ ∈ (Quit c sendErr w).2 ∧
      Effect.chanClose ch ∈ (Quit c sendErr w).2) := by
  cases hc : c.eventChan <;> cases hp : c.processSpawned <;>
    cases sendErr <;>
    simp [Quit, waitMessage, stopSync, killProcess, hc, hp]

/-- Witness for C7: a syncing client with a live process, QUIT send ok but
reply timing out, still gets its process killed and its channel flushed. -/
theorem Quit_always_dead_witness :
    (Effect.killProc ∈ (Quit cSyncing none .timeout).2 ∧
      Effect.waitProc ∈ (Quit cSyncing none .timeout).2) ∧
    Effect.chanPush 0 ⟨"stop", none, cSyncing.id⟩ ∈ (Quit cSyncing none .timeout).2 ∧
    Effect.chanClose 0 ∈ (Quit cSyncing none .timeout).2 :=
  ⟨(Quit_always_dead cSyncing none .timeout).2.2.1 (by decide),
   (Quit_always_dead cSyncing none .timeout).2.2.2 0 (by decide)⟩

/-- C8: on the matching "list" envelope with no error flag, `List` returns
exactly the `ports` sequence of the envelope (hence the empty sequence,
not a failure, when `ports` is empty or absent), and `List` never changes
the client. -/
theorem List_returns_ports (c : Client) (m : DiscoveryMessage)
    (h1 : m.eventType = "list") (h2 : m.error = false) :
    (ListCmd c none (.msg m)).2.2 = .ok m.ports ∧
    (m.ports = [] → (ListCmd c none (.msg m)).2.2 = .ok []) ∧
    (∀ sendErr w, (ListCmd c sendErr w).1 = c) := by
  refine ⟨by simp [ListCmd, waitMessage, h1, h2], ?_, ?_⟩
  · intro hp
    simp [ListCmd, waitMessage, h1, h2, hp]
  · intro sendErr w
    cases sendErr with
    | some e => rfl
    | none =>
      cases w with
      | chanClosed => rfl
      | timeout => rfl
      | msg m2 =>
        by_cases g1 : m2.eventType = "list" <;>
          by_cases g2 : m2.error <;>
          simp [ListCmd, waitMessage, g1, g2]

/-- Witness for C8: a "list" envelope with an empty (absent) `ports` field
yields the empty sequence and no failure, and the client is untouched by a
timed-out List. -/
theorem List_returns_ports_witness :
    (ListCmd (NewClient "disc1") none
        (.msg ⟨"list", "", false, 0, [], none⟩)).2.2 = .ok [] ∧
    (ListCmd (NewClient "disc1") none .timeout).1 = NewClient "disc1" :=
  ⟨(List_returns_ports (NewClient "disc1") ⟨"list", "", false, 0, [], none⟩
      (by decide) (by decide)).2.1 (by decide),
   (List_returns_ports (NewClient "disc1") ⟨"list", "", false, 0, [], none⟩
      (by decide) (by decide)).2.2 none .timeout⟩

/-- C5 counterexample: when the decode loop reaches `Dead` (here on end of
stream), the registered event channel stays registered, receives no
synthetic "stop" event and is never closed: it is silently abandoned,
refuting the "or the Client reaching Dead" part of the claim. -/
theorem decode_loop_dead_abandons_channel_cex :
    (jsonDecodeLoop cSyncing [.eof]).client.state = Dead ∧
    (jsonDecodeLoop cSyncing [.eof]).client.eventChan = some 0 ∧
    (jsonDecodeLoop cSyncing [.eof]).effects = [] := by decide

/-- C5 amended: whenever the event channel is replaced or discarded by
`Stop`, a subsequent `StartSync`, or `Quit`, the previous channel receives
exactly one synthetic "stop" event and is then closed; two successive
successful `StartSync` calls return distinct channels, and the first is
closed (with its terminal "stop") during the second call, whose effects
never touch the new channel. The decode loop reaching `Dead`, however,
leaves the registered channel untouched. -/
theorem event_channel_replacement (c : Client) (ch : Nat)
    (hch : c.eventChan = some ch) (mStop mSync : DiscoveryMessage)
    (hs1 : mStop.eventType = "stop") (hs2 : mStop.error = false)
    (hs3 : toUpperStr mStop.message = "OK")
    (hy1 : mSync.eventType = "start_sync") (hy2 : mSync.error = false)
    (hy3 : toUpperStr mSync.message = "OK") :
    ((Stop c none (.msg mStop)).2.1 =
      [Effect.sendLine "STOP\n", Effect.chanPush ch ⟨"stop", none, c.id⟩,
       Effect.chanClose ch]) ∧
    (∀ sendErr w, ∃ pre post,
      (Quit c sendErr w).2 =
        pre ++ [Effect.chanPush ch ⟨"stop", none, c.id⟩, Effect.chanClose ch]
          ++ post ∧
      (∀ e, Effect.chanPush ch e ∉ pre ++ post) ∧
      Effect.chanClose ch ∉ pre ++ post) ∧
    (∀ n, (StartSync c n none (.msg mSync)).2.1 =
        [Effect.sendLine "START_SYNC\n",
         Effect.chanPush ch ⟨"stop", none, c.id⟩, Effect.chanClose ch] ∧
      (StartSync c n none (.msg mSync)).2.2 = .ok c.nextChanId ∧
      (StartSync c n none (.msg mSync)).1.eventChan = some c.nextChanId) ∧
    (∀ n1 n2,
      (StartSync ((StartSync c n1 none (.msg mSync)).1) n2 none
          (.msg mSync)).2.2 = .ok (c.nextChanId + 1) ∧
      c.nextChanId + 1 ≠ c.nextChanId ∧
      (StartSync ((StartSync c n1 none (.msg mSync)).1) n2 none
          (.msg mSync)).2.1 =
        [Effect.sendLine "START_SYNC\n",
         Effect.chanPush c.nextChanId ⟨"stop", none, c.id⟩,
         Effect.chanClose c.nextChanId]) := by
  refine ⟨?_, ?_, ?_, ?_⟩
  · simp [Stop, waitMessage, stopSync, hs1, hs2, hs3, hch]
  · intro sendErr w
    have hquit : (Quit c sendErr w).2 =
        (match sendErr with
          | some _ => []
          | none => [Effect.sendLine "QUIT\n"]) ++
        [Effect.chanPush ch ⟨"stop", none, c.id⟩, Effect.chanClose ch] ++
        (if c.processSpawned then [Effect.killProc, Effect.waitProc]
          else []) := by
      cases sendErr <;> cases hp : c.processSpawned <;>
        simp [Quit, waitMessage, stopSync, killProcess, hch, hp]
    refine ⟨_, _, hquit, ?_, ?_⟩
    · intro e
      cases sendErr <;> cases hp : c.processSpawned <;> simp [hp]
    · cases sendErr <;> cases hp : c.processSpawned <;> simp [hp]
  · intro n
    simp [StartSync, waitMessage, stopSync, hy1, hy2, hy3, hch]
  · intro n1 n2
    simp [StartSync, waitMessage, stopSync, hy1, hy2, hy3, hch]

/-- Witness for the amended C5: two successive successful StartSync calls
on a syncing client with channel 0 open return channels 1 and 2, and the
second call closes channel 1 after its synthetic stop. -/
theorem event_channel_replacement_witness :
    (StartSync ((StartSync cSyncing 10 none (.msg (okReply "start_sync"))).1)
        10 none (.msg (okReply "start_sync"))).2.2 =
      .ok (cSyncing.nextChanId + 1) ∧
    cSyncing.nextChanId + 1 ≠ cSyncing.nextChanId ∧
    (StartSync ((StartSync cSyncing 10 none (.msg (okReply "start_sync"))).1)
        10 none (.msg (okReply "start_sync"))).2.1 =
      [Effect.sendLine "START_SYNC\n",
       Effect.chanPush cSyncing.nextChanId ⟨"stop", none, cSyncing.id⟩,
       Effect.chanClose cSyncing.nextChanId] :=
  (event_channel_replacement cSyncing 0 (by decide) (okReply "stop")
    (okReply "start_sync") (by decide) (by decide) (by decide) (by decide)
    (by decide) (by decide)).2.2.2 10 10

/-- C6: the decode loop never hands an "add" or "remove" envelope to a
waiting command caller; an "add"/"remove" without a port kills the loop
(state `Dead`, error recorded, message channel closed, so every in-flight
or later wait returns that error); one with a port is pushed to the
registered event channel, or silently dropped when none is registered. -/
theorem decode_loop_event_routing (c : Client) :
    (∀ ins m, m ∈ (jsonDecodeLoop c ins).outMsgs →
      m.eventType ≠ "add" ∧ m.eventType ≠ "remove") ∧
    (∀ m ins, m.eventType = "add" → m.port = none →
      (jsonDecodeLoop c (.msg m :: ins)).client.state = Dead ∧
      (jsonDecodeLoop c (.msg m :: ins)).client.incomingMessagesError =
        some "invalid \x27add\x27 message: missing port" ∧
      (jsonDecodeLoop c (.msg m :: ins)).outClosed = true ∧
      (jsonDecodeLoop c (.msg m :: ins)).outMsgs = [] ∧
      waitMessage (jsonDecodeLoop c (.msg m :: ins)).client .chanClosed =
        .error "invalid \x27add\x27 message: missing port") ∧
    (∀ m ins, m.eventType = "remove" → m.port = none →
      (jsonDecodeLoop c (.msg m :: ins)).client.state = Dead ∧
      (jsonDecodeLoop c (.msg m :: ins)).client.incomingMessagesError =
        some "invalid \x27remove\x27 message: missing port" ∧
      (jsonDecodeLoop c (.msg m :: ins)).outClosed = true ∧
      (jsonDecodeLoop c (.msg m :: ins)).outMsgs = [] ∧
      waitMessage (jsonDecodeLoop c (.msg m :: ins)).client .chanClosed =
        .error "invalid \x27remove\x27 message: missing port") ∧
    (∀ m ins p, m.eventType = "add" → m.port = some p →
      (∀ ch, c.eventChan = some ch →
        (jsonDecodeLoop c (.msg m :: ins)).effects =
          Effect.chanPush ch ⟨"add", some p, c.id⟩ ::
            (jsonDecodeLoop c ins).effects) ∧
      (c.eventChan = none →
        (jsonDecodeLoop c (.msg m :: ins)).effects =
          (jsonDecodeLoop c ins).effects)) ∧
    (∀ m ins p, m.eventType = "remove" → m.port = some p →
      (∀ ch, c.eventChan = some ch →
        (jsonDecodeLoop c (.msg m :: ins)).effects =
          Effect.chanPush ch ⟨"remove", some p, c.id⟩ ::
            (jsonDecodeLoop c ins).effects) ∧
      (c.eventChan = none →
        (jsonDecodeLoop c (.msg m :: ins)).effects =
          (jsonDecodeLoop c ins).effects)) := by
  refine ⟨?_, ?_, ?_, ?_, ?_⟩
  · intro ins
    induction ins with
    | nil => simp [jsonDecodeLoop]
    | cons i rest ih =>
      cases i with
      | eof => simp [jsonDecodeLoop, closeAndReportError]
      | fail e => simp [jsonDecodeLoop, closeAndReportError]
      | msg m =>
        by_cases h1 : m.eventType = "add"
        · cases hp : m.port <;>
            simp only [jsonDecodeLoop, closeAndReportError, h1, hp, if_true,
              LoopResult.mk.injEq] <;>
            simp_all
        · by_cases h2 : m.eventType = "remove"
          · cases hp : m.port <;>
              simp only [jsonDecodeLoop, closeAndReportError, h1, h2, if_false,
                if_true, ite_true, ite_false] <;>
              simp_all
          · intro m2 hm2
            simp only [jsonDecodeLoop, h1, h2, if_false, ite_false,
              List.mem_cons] at hm2
            rcases hm2 with rfl | hm2
            · exact ⟨h1, h2⟩
            · exact ih m2 hm2
  · intro m ins h1 hp
    simp [jsonDecodeLoop, closeAndReportError, waitMessage, h1, hp]
  · intro m ins h2 hp
    have h1 : ¬ m.eventType = "add" := by simp [h2]
    simp [jsonDecodeLoop, closeAndReportError, waitMessage, h1, h2, hp]
  · intro m ins p h1 hp
    constructor
    · intro ch hch
      simp [jsonDecodeLoop, h1, hp, hch]
    · intro hch
      simp [jsonDecodeLoop, h1, hp, hch]
  · intro m ins p h2 hp
    have h1 : ¬ m.eventType = "add" := by simp [h2]
    constructor
    · intro ch hch
      simp [jsonDecodeLoop, h1, h2, hp, hch]
    · intro hch
      simp [jsonDecodeLoop, h1, h2, hp, hch]

/-- Witness for C6: a portless "add" after the syncing client kills the
loop with the recorded error, and a ported "add" is pushed to channel 0. -/
theorem decode_loop_event_routing_witness :
    waitMessage
        (jsonDecodeLoop cSyncing
          [.msg ⟨"add", "", false, 0, [], none⟩]).client .chanClosed =
      .error "invalid \x27add\x27 message: missing port" ∧
    (jsonDecodeLoop cSyncing
        [.msg ⟨"add", "", false, 0, [],
          some ⟨"1", "lbl", "dummy", "Dummy", []⟩⟩]).effects =
      Effect.chanPush 0 ⟨"add", some ⟨"1", "lbl", "dummy", "Dummy", []⟩,
          cSyncing.id⟩ ::
        (jsonDecodeLoop cSyncing []).effects :=
  ⟨((decode_loop_event_routing cSyncing).2.1 ⟨"add", "", false, 0, [], none⟩ []
      (by decide) (by decide)).2.2.2.2,
   ((decode_loop_event_routing cSyncing).2.2.2.1 ⟨"add", "", false, 0, [],
        some ⟨"1", "lbl", "dummy", "Dummy", []⟩⟩ []
      ⟨"1", "lbl", "dummy", "Dummy", []⟩ (by decide) (by decide)).1 0 (by decide)⟩

end Discovery

namespace DummyDiscovery

/-- C10: counting invocations from 1, the i-th call of the dummy
discovery command `StartSync` increments the counter to i, fails with the fixed
error exactly when i is a multiple of 5, and otherwise succeeds and starts
the emitter. -/
theorem dummy_startSync_fails_every_fifth (i d : Nat) (h : 1 ≤ i) :
    (StartSync (i - 1) d).1 = i ∧
    ((StartSync (i - 1) d).2 =
        Except.error "could not start_sync every 5 times" ↔ i % 5 = 0) ∧
    (¬ i % 5 = 0 → (StartSync (i - 1) d).2 = Except.ok (emitterTrace d)) := by
  have hi : i - 1 + 1 = i := Nat.succ_pred_eq_of_pos h
  unfold StartSync
  by_cases h5 : i % 5 = 0 <;> simp [hi, h5]

/-- Witness for C10 at the fifth and sixth invocations. -/
theorem dummy_startSync_fails_every_fifth_witness :
    ((StartSync (5 - 1) 0).2 =
        Except.error "could not start_sync every 5 times") ∧
    (StartSync (6 - 1) 0).2 = Except.ok (emitterTrace 0) :=
  ⟨(dummy_startSync_fails_every_fifth 5 0 (by decide)).2.1.mpr (by decide),
   (dummy_startSync_fails_every_fifth 6 0 (by decide)).2.2 (by decide)⟩

end DummyDiscovery
